import Mathlib

unseal Rat.mul Rat.add Rat.inv Rat.sub

/-!
Shallow embedding of `src/scripts/train_metadata_extraction.py`.

The script has two functions:
* `get_video_metadata(video_path)` — runs `ffprobe` on one file, parses its
  JSON output and fills a metadata dictionary, catching
  `(subprocess.CalledProcessError, ValueError, KeyError, ZeroDivisionError)`
  at the function boundary;
* `process_videos(video_dir, output_csv)` — checks the input path exists,
  lists the directory, filters names ending in `.mp4` (case-insensitive),
  writes a CSV header row and then one row per filtered file.

Modelling choices (all from the source, not the spec):
* The outcome of `subprocess.check_output` + `json.loads` is a `ProbeResult`:
  the tool may be missing (Python raises `FileNotFoundError`), exit non-zero
  (`subprocess.CalledProcessError`), print non-JSON text
  (`json.JSONDecodeError`, a `ValueError` subclass), or yield a parsed JSON
  value `JVal`.
* Python exceptions that this code can raise are the enumeration `PyErr`.
  The `except` tuple of `get_video_metadata` is the predicate `caughtErrors`.
* The metadata dictionary is the structure `Metadata`; its values are Python
  scalars (`PyScalar`): `None`, `int`, `float` (modelled as `ℚ`) or `str`.
  Mutation is modelled by threading the record through `tryBody`, which
  returns the record together with the first raised exception, if any, so
  that fields already assigned before an exception survive, exactly as in
  the Python `try` block.
* `float(x)` / `int(x)` on JSON-derived values are `pyFloat` / `pyInt`;
  string parsing models the decimal forms Python accepts (optional sign,
  digits, one optional dot, surrounding whitespace).  Exponent, infinity,
  nan and underscore forms are outside the modelled subset; none of the
  claims mentions them.
* Python `round(x, 2)` is `pyRound2`, round-half-to-even at two decimals,
  over `ℚ` (real arithmetic in place of IEEE doubles; the claims' values
  are far from ties, where the two agree).
* The filesystem state of the input path is `PathState`: absent, a
  non-directory entry, or a directory with a listing.  On a non-directory,
  POSIX `os.listdir` raises `NotADirectoryError`.
* `str.lower` is modelled on ASCII letters (`Char.toLower`), which covers
  the extension filter the script uses.
-/

/-- Python exception classes that the script can raise or catch. -/
inductive PyErr where
  | calledProcessError
  | fileNotFoundError
  | valueError
  | keyError
  | zeroDivisionError
  | typeError
  | attributeError
  | notADirectoryError
deriving DecidableEq, Repr

/-- Membership in the `except (subprocess.CalledProcessError, ValueError,
KeyError, ZeroDivisionError)` tuple of `get_video_metadata`.
`json.JSONDecodeError` is a subclass of `ValueError`, hence `.valueError`
is caught; `FileNotFoundError` and `NotADirectoryError` are `OSError`
subclasses and are not in the tuple, nor are `TypeError` and
`AttributeError`. -/
def caughtErrors : PyErr → Bool
  | .calledProcessError => true
  | .valueError => true
  | .keyError => true
  | .zeroDivisionError => true
  | _ => false

/-- A parsed JSON value as `json.loads` returns it: `null`, numbers
(Python `int` or `float`), strings, objects (Python `dict`, insertion
order = text order, duplicate keys resolved last-wins by `json.loads`)
and arrays (Python `list`). -/
inductive JVal where
  | null
  | intv (n : ℤ)
  | floatv (q : ℚ)
  | str (s : String)
  | obj (fields : List (String × JVal))
  | arr (elems : List JVal)

/-- Last-wins lookup in a parsed JSON object, matching how `json.loads`
builds a Python `dict` from possibly duplicated keys. -/
def jLookup (fields : List (String × JVal)) (key : String) : Option JVal :=
  fields.reverse.lookup key

/-- Python `d.get(key, dflt)`.  On a non-`dict` receiver the attribute
access `.get` raises `AttributeError`. -/
def pyGet : JVal → String → JVal → Except PyErr JVal
  | .obj fields, key, dflt => .ok ((jLookup fields key).getD dflt)
  | _, _, _ => .error .attributeError

/-- Iterating a Python value: a `list` yields its elements, a `dict` its
keys, a `str` its one-character substrings; numbers and `None` raise
`TypeError` (not iterable). -/
def jElems : JVal → Except PyErr (List JVal)
  | .arr elems => .ok elems
  | .obj fields => .ok (fields.map (fun kv => JVal.str kv.1))
  | .str s => .ok (s.data.map (fun c => JVal.str (String.mk [c])))
  | _ => .error .typeError

/-- Python `v == t` for a string literal `t`: true only when `v` is that
very string (comparison between different types is `False`, no error). -/
def isStr (v : JVal) (t : String) : Bool :=
  match v with
  | .str s => s = t
  | _ => false

/-- The script's `next((s for s in streams if s.get('codec_type') == ct), default)`:
walk the stream list lazily, returning the first entry whose
`codec_type` equals `ct`; an element that is not a `dict` raises
`AttributeError` at `.get`, exactly when the generator reaches it. -/
def findStream : List JVal → String → Except PyErr (Option JVal)
  | [], _ => .ok none
  | s :: rest, ct =>
    match s with
    | .obj fields =>
      if isStr ((jLookup fields "codec_type").getD JVal.null) ct then
        .ok (some (JVal.obj fields))
      else
        findStream rest ct
    | _ => .error .attributeError

/-- Strip leading and trailing whitespace, as `int(str)` / `float(str)` do. -/
def pyTrim (cs : List Char) : List Char :=
  ((cs.dropWhile Char.isWhitespace).reverse.dropWhile Char.isWhitespace).reverse

/-- Numeric value of a list of decimal digit characters. -/
def digitsToNat (ds : List Char) : ℕ :=
  ds.foldl (fun a c => 10 * a + (c.toNat - 48)) 0

/-- Python `int(s)` on a string: optional surrounding whitespace, optional
sign, then one or more decimal digits; anything else raises `ValueError`. -/
def pyIntOfStr (s : String) : Except PyErr ℤ :=
  match pyTrim s.data with
  | [] => .error .valueError
  | c :: rest =>
    let sgn : ℤ := if c = '-' then -1 else 1
    let ds := if c = '-' ∨ c = '+' then rest else c :: rest
    if ds ≠ [] ∧ ds.all Char.isDigit then
      .ok (sgn * (digitsToNat ds : ℤ))
    else
      .error .valueError

/-- Python `float(s)` on a string, restricted to the plain decimal forms:
optional surrounding whitespace, optional sign, digits with at most one
dot and at least one digit; anything else raises `ValueError`. -/
def pyFloatOfStr (s : String) : Except PyErr ℚ :=
  match pyTrim s.data with
  | [] => .error .valueError
  | c :: rest =>
    let sgn : ℚ := if c = '-' then -1 else 1
    let ds := if c = '-' ∨ c = '+' then rest else c :: rest
    let ip := ds.takeWhile (fun d => d ≠ '.')
    if ip.all Char.isDigit then
      match ds.drop ip.length with
      | [] =>
        if ip ≠ [] then .ok (sgn * (digitsToNat ip : ℚ)) else .error .valueError
      | '.' :: fp =>
        if fp.all Char.isDigit ∧ (ip ≠ [] ∨ fp ≠ []) then
          .ok (sgn * ((digitsToNat ip : ℚ) + (digitsToNat fp : ℚ) / (10 : ℚ) ^ fp.length))
        else
          .error .valueError
      | _ => .error .valueError
    else
      .error .valueError

/-- Truncation toward zero, as Python `int(float)` does. -/
def ratTrunc (q : ℚ) : ℤ :=
  if 0 ≤ q then ⌊q⌋ else ⌈q⌉

/-- Python `float(v)` on a JSON-derived value. `None`, `dict` and `list`
raise `TypeError`. -/
def pyFloat : JVal → Except PyErr ℚ
  | .intv n => .ok (n : ℚ)
  | .floatv q => .ok q
  | .str s => pyFloatOfStr s
  | _ => .error .typeError

/-- Python `int(v)` on a JSON-derived value. `None`, `dict` and `list`
raise `TypeError`. -/
def pyInt : JVal → Except PyErr ℤ
  | .intv n => .ok n
  | .floatv q => .ok (ratTrunc q)
  | .str s => pyIntOfStr s
  | _ => .error .typeError

/-- Python `s.split('/')` on the character list of a string. -/
def splitOnSlash : List Char → List (List Char)
  | [] => [[]]
  | c :: rest =>
    let r := splitOnSlash rest
    if c = '/' then
      [] :: r
    else
      match r with
      | h :: t => (c :: h) :: t
      | [] => [[c]]

/-- The script's `fps_parts = ....split('/')`.  The receiver must be a
string; on any other value `.split` raises `AttributeError`. -/
def pySplitSlash : JVal → Except PyErr (List String)
  | .str s => .ok ((splitOnSlash s.data).map String.mk)
  | _ => .error .attributeError

/-- Round-half-to-even to the nearest integer, as Python `round` does. -/
def roundHalfEven (q : ℚ) : ℤ :=
  let f := ⌊q⌋
  let r := q - (f : ℚ)
  if r < 1 / 2 then f
  else if 1 / 2 < r then f + 1
  else if f % 2 = 0 then f else f + 1

/-- Python `round(x, 2)`: round-half-to-even at two decimal places. -/
def pyRound2 (q : ℚ) : ℚ :=
  (roundHalfEven (q * 100) : ℚ) / 100

/-- A Python scalar as stored in the metadata dictionary and passed to
`csv.writer.writerow`: `None`, an `int`, a `float` (as `ℚ`) or a `str`. -/
inductive PyScalar where
  | none
  | int (n : ℤ)
  | float (q : ℚ)
  | str (s : String)
deriving DecidableEq, Repr

/-- The `metadata` dictionary of `get_video_metadata`: six fixed keys. -/
structure Metadata where
  duration : PyScalar
  width : PyScalar
  height : PyScalar
  fps : PyScalar
  has_audio : PyScalar
  bitrate : PyScalar
deriving DecidableEq, Repr

/-- The initial dictionary: `None` everywhere except `has_audio = 0`. -/
def metaDefault : Metadata :=
  { duration := .none, width := .none, height := .none, fps := .none,
    has_audio := .int 0, bitrate := .none }

/-- Sequencing inside the `try` block: if the sub-expression raises, the
block stops with the record as mutated so far; otherwise continue. -/
def step {α : Type} (m : Metadata) (e : Except PyErr α)
    (k : α → Metadata × Option PyErr) : Metadata × Option PyErr :=
  match e with
  | .error err => (m, some err)
  | .ok a => k a

/-- The outcome of `subprocess.check_output` + `json.loads` for one file:
the probing tool may be absent (`FileNotFoundError`), exit non-zero
(`subprocess.CalledProcessError`), print text that is not JSON
(`json.JSONDecodeError ⊆ ValueError`), or produce a parsed JSON value. -/
inductive ProbeResult where
  | toolNotFound
  | nonZeroExit
  | badJson
  | json (info : JVal)

/-- `metadata['has_audio'] = 1 if audio_stream else 0`, the last statement
of the `try` block.  A matched audio stream is a non-empty `dict`, hence
truthy; the `next` default was `None`, falsy. -/
def setAudio (m : Metadata) (a : Option JVal) : Metadata × Option PyErr :=
  ({ m with has_audio := PyScalar.int (match a with | some _ => 1 | none => 0) }, none)

/-- The fps branch: `if len(fps_parts) == 2 and int(fps_parts[1]) != 0:`
then `round(int(fps_parts[0]) / int(fps_parts[1]), 2)`, `else fps = 0`;
followed by the `has_audio` assignment. -/
def fpsAndAudio (m : Metadata) (parts : List String) (a : Option JVal) :
    Metadata × Option PyErr :=
  match parts with
  | [pa, pb] =>
    step m (pyIntOfStr pb) fun den =>
      if den ≠ 0 then
        step m (pyIntOfStr pa) fun num =>
          setAudio { m with fps := PyScalar.float (pyRound2 ((num : ℚ) / (den : ℚ))) } a
      else
        setAudio { m with fps := PyScalar.int 0 } a
  | _ => setAudio { m with fps := PyScalar.int 0 } a

/-- The `if video_stream:` body: width, height, then the fps computation,
then the `has_audio` assignment. -/
def videoFields (m : Metadata) (vs : JVal) (a : Option JVal) :
    Metadata × Option PyErr :=
  step m (pyGet vs "width" (JVal.intv 0)) fun wv =>
  step m (pyInt wv) fun w =>
  let m1 := { m with width := PyScalar.int w }
  step m1 (pyGet vs "height" (JVal.intv 0)) fun hv =>
  step m1 (pyInt hv) fun h =>
  let m2 := { m1 with height := PyScalar.int h }
  step m2 (pyGet vs "r_frame_rate" (JVal.str "0/1")) fun rv =>
  step m2 (pySplitSlash rv) fun parts =>
  fpsAndAudio m2 parts a

/-- The whole `try` block of `get_video_metadata`, threading the mutable
`metadata` dictionary and stopping at the first raised exception. -/
def tryBody (pr : ProbeResult) (m0 : Metadata) : Metadata × Option PyErr :=
  match pr with
  | .toolNotFound => (m0, some .fileNotFoundError)
  | .nonZeroExit => (m0, some .calledProcessError)
  | .badJson => (m0, some .valueError)
  | .json info =>
    step m0 (pyGet info "format" (JVal.obj [])) fun fmt =>
    step m0 (pyGet fmt "duration" (JVal.intv 0)) fun dv =>
    step m0 (pyFloat dv) fun dur =>
    let m1 := { m0 with duration := PyScalar.float dur }
    step m1 (pyGet fmt "bit_rate" (JVal.intv 0)) fun bv =>
    step m1 (pyInt bv) fun br =>
    let m2 := { m1 with bitrate := PyScalar.int br }
    step m2 (pyGet info "streams" (JVal.arr [])) fun sv =>
    step m2 (jElems sv) fun streams =>
    step m2 (findStream streams "video") fun vOpt =>
    step m2 (findStream streams "audio") fun aOpt =>
    match vOpt with
    | some vs => videoFields m2 vs aOpt
    | none => setAudio m2 aOpt

/-- `get_video_metadata`: run the `try` block from the default dictionary;
an exception in the `except` tuple is logged and the partial dictionary
returned; any other exception propagates to the caller. -/
def get_video_metadata (pr : ProbeResult) : Except PyErr Metadata :=
  match tryBody pr metaDefault with
  | (m, Option.none) => .ok m
  | (m, some e) => if caughtErrors e then .ok m else .error e

instance {ε α : Type} [DecidableEq ε] [DecidableEq α] : DecidableEq (Except ε α) := fun x y =>
  match x, y with
  | .ok a, .ok b =>
    if h : a = b then isTrue (by rw [h]) else isFalse (by simp [h])
  | .ok _, .error _ => isFalse (by simp)
  | .error _, .ok _ => isFalse (by simp)
  | .error e, .error f =>
    if h : e = f then isTrue (by rw [h]) else isFalse (by simp [h])

/-- The state of the input path on disk: missing, an existing
non-directory entry, or a directory with its (flat) listing. -/
inductive PathState where
  | absent
  | plainFile
  | dir (entries : List String)

/-- `f.lower().endswith('.mp4')`, the list-comprehension filter of
`process_videos` (ASCII lowering). -/
def matchesMp4 (f : String) : Bool :=
  ['.', 'm', 'p', '4'].isSuffixOf (f.data.map Char.toLower)

/-- Index of the last `'.'` in a character list, if any. -/
def lastDotIdx (cs : List Char) : Option ℕ :=
  ((cs.enum.filter (fun x => x.2 = '.')).map (fun x => x.1)).getLast?

/-- `os.path.splitext(f)[0]` for a bare directory entry (no path
separator inside): split at the last dot, except that a name whose
characters before that dot are all dots has no extension (CPython's
leading-dot rule, e.g. `splitext('.mp4') = ('.mp4', '')`). -/
def splitextStem (p : String) : String :=
  let cs := p.data
  match lastDotIdx cs with
  | Option.none => p
  | some i =>
    if (cs.take i).all (fun c => c = '.') then p else String.mk (cs.take i)

/-- `os.path.join(video_dir, f)` under the POSIX rules the script runs on:
an absolute second component wins; otherwise insert `'/'` unless the
directory is empty or already ends in `'/'`. -/
def pathJoin (d f : String) : String :=
  if f.startsWith "/" then f
  else if d = "" then f
  else if d.endsWith "/" then d ++ f
  else d ++ "/" ++ f

/-- The fixed header row `['Id', 'duration', 'width', 'height', 'fps',
'has_audio', 'bitrate']` passed to `writer.writerow`. -/
def headerRow : List PyScalar :=
  [.str "Id", .str "duration", .str "width", .str "height", .str "fps",
   .str "has_audio", .str "bitrate"]

/-- The data row written for file `f` with extracted metadata `m`:
`[vid_id, duration, width, height, fps, has_audio, bitrate]`. -/
def mkRow (f : String) (m : Metadata) : List PyScalar :=
  [PyScalar.str (splitextStem f), m.duration, m.width, m.height, m.fps,
   m.has_audio, m.bitrate]

/-- The `for f in tqdm(files)` loop: per file, call `get_video_metadata`
on the joined path and append a row; an exception escaping the call
aborts the loop, keeping the rows already written (the `with` block
closes the file on the way out). -/
def writeRows (video_dir : String) (probe : String → ProbeResult) :
    List String → List (List PyScalar) × Option PyErr
  | [] => ([], Option.none)
  | f :: rest =>
    match get_video_metadata (probe (pathJoin video_dir f)) with
    | .error e => ([], some e)
    | .ok m =>
      let r := writeRows video_dir probe rest
      (mkRow f m :: r.1, r.2)

/-- The observable outcome of one `process_videos` run: the content of the
output file if it was created (as rows of Python scalars), and the
exception escaping the call, if any. -/
structure RunResult where
  outFile : Option (List (List PyScalar))
  raised : Option PyErr
deriving DecidableEq, Repr

/-- `process_videos(video_dir, output_csv)` over a filesystem state for
the input path and a probe outcome per probed path.  A missing directory
logs and returns without opening the output; an existing non-directory
passes the `os.path.exists` check and then `os.listdir` raises
`NotADirectoryError` before the output is opened; a directory is
filtered, the output opened, the header written, then one row per file. -/
def process_videos (video_dir : String) (st : PathState)
    (probe : String → ProbeResult) : RunResult :=
  match st with
  | .absent => { outFile := Option.none, raised := Option.none }
  | .plainFile => { outFile := Option.none, raised := some .notADirectoryError }
  | .dir entries =>
    let files := entries.filter matchesMp4
    let wr := writeRows video_dir probe files
    { outFile := some (headerRow :: wr.1), raised := wr.2 }

/-- Decimal rendering of a `float` value for `str()`: integral floats
print with a trailing `.0`, finite decimals print exactly; a rational
without finite decimal expansion (which no value of this program has)
falls back to a fraction rendering. -/
def floatStr (q : ℚ) : String :=
  match (List.range 31).find? (fun k => (q * (10 : ℚ) ^ k).den = 1) with
  | some 0 => toString q.num ++ ".0"
  | some k =>
    let m := (q * (10 : ℚ) ^ k).num
    let digits := toString m.natAbs
    let padded :=
      if digits.length ≤ k then
        String.mk (List.replicate (k + 1 - digits.length) '0') ++ digits
      else digits
    let cut := padded.length - k
    (if m < 0 then "-" else "") ++
      String.mk (padded.data.take cut) ++ "." ++ String.mk (padded.data.drop cut)
  | Option.none => toString q.num ++ "/" ++ toString q.den

/-- How `csv.writer` renders one value: `None` becomes the empty cell,
anything else its `str()` form. -/
def csvCell : PyScalar → String
  | .none => ""
  | .int n => toString n
  | .float q => floatStr q
  | .str s => s

/-- A whole row as the CSV module renders it, cell by cell. -/
def csvRender (r : List PyScalar) : List String :=
  r.map csvCell

/-- Whether an audio stream entry is present in the probe's stream list:
the probe parsed, its `streams` value is iterable, and the generator
search for `codec_type == 'audio'` finds an entry. -/
def audioStreamFound : ProbeResult → Bool
  | .json info =>
    match pyGet info "streams" (JVal.arr []) with
    | .ok sv =>
      match jElems sv with
      | .ok streams =>
        match findStream streams "audio" with
        | .ok (some _) => true
        | _ => false
      | .error _ => false
    | .error _ => false
  | _ => false

/-- A fully well-formed ffprobe result: format section with duration and
bitrate (ffprobe emits both as JSON strings), one video stream with
width, height and the NTSC rate `30000/1001`, and one audio stream. -/
def wellFormedProbe : ProbeResult :=
  .json (.obj [
    ("format", .obj [("duration", .str "12.0"), ("bit_rate", .str "534000")]),
    ("streams", .arr [
      .obj [("codec_type", .str "video"), ("width", .intv 1920),
            ("height", .intv 1080), ("r_frame_rate", .str "30000/1001")],
      .obj [("codec_type", .str "audio")]])])

/-- A probe result whose video stream carries the malformed two-part
frame-rate string `30/x` and which has no audio stream. -/
def malformedRateProbe : ProbeResult :=
  .json (.obj [
    ("streams", .arr [
      .obj [("codec_type", .str "video"), ("r_frame_rate", .str "30/x")]])])

/-- A probe result with the malformed two-part frame-rate string `30/x`
on the video stream and an audio stream present after it. -/
def malformedRateWithAudioProbe : ProbeResult :=
  .json (.obj [
    ("streams", .arr [
      .obj [("codec_type", .str "video"), ("r_frame_rate", .str "30/x")],
      .obj [("codec_type", .str "audio")]])])

/-- A probe result whose single video stream carries the frame-rate
string `s` (no width, height, duration, bitrate or audio stream), used
to settle the frame-rate claims uniformly in `s`. -/
def rateProbe (s : String) : ProbeResult :=
  .json (.obj [("streams",
    .arr [.obj [("codec_type", .str "video"), ("r_frame_rate", .str s)]])])

/-- The record state reached by the `try` block on `rateProbe s` just
before the fps computation: duration and bitrate defaulted to `0`,
width and height defaulted to `0`, fps and `has_audio` untouched. -/
def rateBase : Metadata :=
  { duration := .float ((0 : ℤ) : ℚ), width := .int 0, height := .int 0,
    fps := .none, has_audio := .int 0, bitrate := .int 0 }

/-- If the `try` block stops at a raised exception, `has_audio` still has
its initial value: the only statement writing it is the last one. -/
lemma tryBody_err_has_audio (pr : ProbeResult) (m0 : Metadata) (m : Metadata)
    (e : PyErr) (h : tryBody pr m0 = (m, some e)) : m.has_audio = m0.has_audio := by
  cases pr with
  | toolNotFound => simp only [tryBody] at h; cases h; rfl
  | nonZeroExit => simp only [tryBody] at h; cases h; rfl
  | badJson => simp only [tryBody] at h; cases h; rfl
  | json info =>
    simp only [tryBody, videoFields, fpsAndAudio, setAudio, step] at h
    repeat' split at h
    all_goals try obtain ⟨h1, h2⟩ := h
    all_goals simp_all

/-- If the `try` block runs to completion, `has_audio` is `1` exactly when
the audio-stream search succeeded, else `0`. -/
lemma tryBody_ok_has_audio (pr : ProbeResult) (m0 : Metadata) (m : Metadata)
    (h : tryBody pr m0 = (m, Option.none)) :
    m.has_audio = PyScalar.int (if audioStreamFound pr then 1 else 0) := by
  cases pr with
  | toolNotFound => simp [tryBody] at h
  | nonZeroExit => simp [tryBody] at h
  | badJson => simp [tryBody] at h
  | json info =>
    simp only [tryBody, videoFields, fpsAndAudio, setAudio, step] at h
    repeat' split at h
    all_goals try obtain ⟨h1, h2⟩ := h
    all_goals simp_all [audioStreamFound]

/-- Every data row produced by the loop comes from one listed file, with
the metadata the extractor returned for it. -/
lemma writeRows_mem (d : String) (probe : String → ProbeResult) :
    ∀ (files : List String), ∀ r ∈ (writeRows d probe files).1,
      ∃ f ∈ files, ∃ m, get_video_metadata (probe (pathJoin d f)) = Except.ok m ∧
        r = mkRow f m := by
  intro files
  induction files with
  | nil => intro r hr; simp [writeRows] at hr
  | cons f rest ih =>
    intro r hr
    simp only [writeRows] at hr
    cases hg : get_video_metadata (probe (pathJoin d f)) with
    | error e => rw [hg] at hr; simp at hr
    | ok m =>
      rw [hg] at hr
      simp only [List.mem_cons] at hr
      cases hr with
      | inl h => exact ⟨f, by simp, m, hg, h⟩
      | inr h =>
        obtain ⟨f2, hf2, m2, hg2, hr2⟩ := ih r h
        exact ⟨f2, by simp [hf2], m2, hg2, hr2⟩

/-- When no file's extraction lets an exception escape, the loop writes
exactly one row per file, in order, and finishes without an exception. -/
lemma writeRows_allOk (d : String) (probe : String → ProbeResult) :
    ∀ (files : List String),
      (∀ f ∈ files, (get_video_metadata (probe (pathJoin d f))).isOk = true) →
      (writeRows d probe files).2 = Option.none ∧
        (writeRows d probe files).1.map (fun r => r.head?) =
          files.map (fun f => some (PyScalar.str (splitextStem f))) := by
  intro files
  induction files with
  | nil => intro _; simp [writeRows]
  | cons f rest ih =>
    intro h
    have hf := h f (by simp)
    cases hg : get_video_metadata (probe (pathJoin d f)) with
    | error e => rw [hg] at hf; simp [Except.isOk, Except.toBool] at hf
    | ok m =>
      have hrest := ih (fun g hgm => h g (by simp [hgm]))
      simp only [writeRows, hg]
      simp [mkRow, hrest.1, hrest.2]

/-- Running the `try` block on `rateProbe s` deterministically reaches the
fps computation with the parts of `s` split on `'/'`. -/
lemma rateProbe_eval (s : String) :
    tryBody (rateProbe s) metaDefault =
      fpsAndAudio rateBase ((splitOnSlash s.data).map String.mk) Option.none := rfl

/-- A `try` block that completes makes `get_video_metadata` return its
record. -/
lemma get_ok_of_none (pr : ProbeResult) (m : Metadata)
    (h : tryBody pr metaDefault = (m, Option.none)) :
    get_video_metadata pr = Except.ok m := by
  unfold get_video_metadata; rw [h]

/-- A `try` block that raises an exception of the `except` tuple makes
`get_video_metadata` return the partial record. -/
lemma get_ok_of_caught (pr : ProbeResult) (m : Metadata) (e : PyErr)
    (h : tryBody pr metaDefault = (m, some e)) (hc : caughtErrors e = true) :
    get_video_metadata pr = Except.ok m := by
  unfold get_video_metadata; rw [h]; simp [hc]

/-- `int(str)` can only raise `ValueError`. -/
lemma pyIntOfStr_error (t : String) (e : PyErr) (h : pyIntOfStr t = .error e) :
    e = PyErr.valueError := by
  unfold pyIntOfStr at h
  repeat' (first | (dsimp only at h) | split at h)
  all_goals simp_all

/-- Claim C1 (refuted as stated; the code contradicts its own comment):
a non-zero ffprobe exit and unparseable (non-JSON) output are contained
and produce the all-default record (absent fields, `has_audio = 0`), but
an absent probing tool is NOT contained: `FileNotFoundError` is not in
the `except` tuple, so `get_video_metadata` raises it to its caller. -/
theorem c1_tool_not_found_escapes :
    get_video_metadata ProbeResult.toolNotFound = Except.error PyErr.fileNotFoundError ∧
    get_video_metadata ProbeResult.nonZeroExit = Except.ok metaDefault ∧
    get_video_metadata ProbeResult.badJson = Except.ok metaDefault ∧
    metaDefault = { duration := PyScalar.none, width := PyScalar.none,
                    height := PyScalar.none, fps := PyScalar.none,
                    has_audio := PyScalar.int 0, bitrate := PyScalar.none } := by
  decide

/-- Claim C2 (refuted as stated): a directory with two entries matching
the `.mp4` filter yields zero data rows, not two, when the probing tool
is absent — the uncaught `FileNotFoundError` escapes the first
`get_video_metadata` call, aborts the loop, and leaves only the header
in the output file. -/
theorem c2_batch_aborts_on_uncaught_error :
    process_videos "vids" (PathState.dir ["a.mp4", "b.mp4"])
        (fun _ => ProbeResult.toolNotFound) =
      { outFile := some [headerRow], raised := some PyErr.fileNotFoundError } ∧
    (["a.mp4", "b.mp4"].filter matchesMp4).length = 2 := by
  decide

/-- Claim C4 (confirmed): on a well-formed probe result whose video
stream reports `r_frame_rate = "30000/1001"`, the computed fps equals
`round(30000/1001, 2) = 29.97`. -/
theorem c4_ntsc_rate_rounds :
    get_video_metadata wellFormedProbe =
      Except.ok { duration := PyScalar.float 12, width := PyScalar.int 1920,
                  height := PyScalar.int 1080,
                  fps := PyScalar.float (pyRound2 ((30000 : ℚ) / 1001)),
                  has_audio := PyScalar.int 1, bitrate := PyScalar.int 534000 } ∧
    pyRound2 ((30000 : ℚ) / 1001) = 29.97 := by
  constructor
  · decide
  · have h : pyRound2 ((30000 : ℚ) / 1001) = 2997 / 100 := by decide
    rw [h]; norm_num

/-- Claim C6 (confirmed): a non-existent input directory makes
`process_videos` return after the logged error, creating no output file
and letting no exception escape. -/
theorem c6_missing_directory_noop (video_dir : String)
    (probe : String → ProbeResult) :
    process_videos video_dir PathState.absent probe =
      { outFile := Option.none, raised := Option.none } := rfl

/-- Claim C10 (confirmed): an input path that exists but is not a
directory passes the `os.path.exists` check, and `os.listdir` then
raises `NotADirectoryError`, which escapes `process_videos` before the
output file is created; the logged no-op return happens only for a path
that does not exist at all. -/
theorem c10_existing_non_directory_raises (video_dir : String)
    (probe : String → ProbeResult) :
    process_videos video_dir PathState.plainFile probe =
      { outFile := Option.none, raised := some PyErr.notADirectoryError } ∧
    process_videos video_dir PathState.absent probe =
      { outFile := Option.none, raised := Option.none } := ⟨rfl, rfl⟩

/-- Claim C3 counterexample: on the malformed two-part frame-rate string
`"30/x"` the claim demands `fps = 0`; the code instead raises
`ValueError` at `int('x')`, catches it at the function boundary, and
leaves `fps` at its absent default `None`. -/
theorem c3_malformed_rate_counterexample :
    (get_video_metadata malformedRateProbe).map Metadata.fps =
      Except.ok PyScalar.none ∧
    (PyScalar.none : PyScalar) ≠ PyScalar.int 0 := by
  decide

/-- Claim C3 as amended: for every frame-rate string `s` on the video
stream, no error propagates to the caller of `get_video_metadata`; when
the string does not split into exactly two parts, or splits into two
parts whose denominator parses to `0`, `fps = 0`; when both parts parse
as integers with nonzero denominator, `fps = round(num / den, 2)`; but
when exactly two parts are produced and either part fails integer
parsing, the `ValueError` is caught at the function boundary and `fps`
keeps its absent default `None` (not `0`). -/
theorem c3_fps_characterization (s : String) :
    ∃ m, get_video_metadata (rateProbe s) = Except.ok m ∧
      (((splitOnSlash s.data).map String.mk).length ≠ 2 → m.fps = PyScalar.int 0) ∧
      (∀ pa pb, (splitOnSlash s.data).map String.mk = [pa, pb] →
        ((pyIntOfStr pb).isOk = false → m.fps = PyScalar.none) ∧
        (pyIntOfStr pb = Except.ok 0 → m.fps = PyScalar.int 0) ∧
        ∀ den, pyIntOfStr pb = Except.ok den → den ≠ 0 →
          ((pyIntOfStr pa).isOk = false → m.fps = PyScalar.none) ∧
          ∀ num, pyIntOfStr pa = Except.ok num →
            m.fps = PyScalar.float (pyRound2 ((num : ℚ) / (den : ℚ)))) := by
  have he := rateProbe_eval s
  cases hps : (splitOnSlash s.data).map String.mk with
  | nil =>
    rw [hps] at he
    refine ⟨{ rateBase with fps := .int 0 }, get_ok_of_none _ _ (by rw [he]; rfl), ?_, ?_⟩
    · intro _; rfl
    · intro pa pb hpp; cases hpp
  | cons pa1 t =>
    cases t with
    | nil =>
      rw [hps] at he
      refine ⟨{ rateBase with fps := .int 0 }, get_ok_of_none _ _ (by rw [he]; rfl), ?_, ?_⟩
      · intro _; rfl
      · intro pa pb hpp; cases hpp
    | cons pb1 t2 =>
      cases t2 with
      | cons x t3 =>
        rw [hps] at he
        refine ⟨{ rateBase with fps := .int 0 }, get_ok_of_none _ _ (by rw [he]; rfl), ?_, ?_⟩
        · intro _; rfl
        · intro pa pb hpp; cases hpp
      | nil =>
        rw [hps] at he
        cases hd : pyIntOfStr pb1 with
        | error e =>
          have hev := pyIntOfStr_error _ _ hd
          subst hev
          simp only [fpsAndAudio, step, hd] at he
          refine ⟨rateBase, get_ok_of_caught _ _ _ he rfl, ?_, ?_⟩
          · intro hlen; exact absurd rfl hlen
          · intro pa pb hpp
            injection hpp with h1 h2
            injection h2 with h2 _
            subst h1; subst h2
            refine ⟨fun _ => rfl, fun h0 => ?_, fun den hden => ?_⟩
            · rw [hd] at h0; cases h0
            · rw [hd] at hden; cases hden
        | ok den1 =>
          by_cases hz : den1 = 0
          · subst hz
            simp only [fpsAndAudio, step, hd, ne_eq, not_true_eq_false, if_false,
              setAudio] at he
            refine ⟨{ rateBase with fps := .int 0, has_audio := .int 0 },
              get_ok_of_none _ _ (by rw [he]), ?_, ?_⟩
            · intro hlen; exact absurd rfl hlen
            · intro pa pb hpp
              injection hpp with h1 h2
              injection h2 with h2 _
              subst h1; subst h2
              refine ⟨fun hbad => ?_, fun _ => rfl, fun den hden hdz => ?_⟩
              · rw [hd] at hbad; cases hbad
              · rw [hd] at hden; injection hden with hden; exact absurd hden.symm hdz
          · simp only [fpsAndAudio, step, hd, ne_eq, hz, not_false_eq_true, if_true] at he
            cases hn : pyIntOfStr pa1 with
            | error e =>
              have hev := pyIntOfStr_error _ _ hn
              subst hev
              rw [hn] at he
              refine ⟨rateBase, get_ok_of_caught _ _ _ he rfl, ?_, ?_⟩
              · intro hlen; exact absurd rfl hlen
              · intro pa pb hpp
                injection hpp with h1 h2
                injection h2 with h2 _
                subst h1; subst h2
                refine ⟨fun _ => rfl, fun h0 => ?_, fun den hden hdz => ?_⟩
                · rw [hd] at h0; injection h0 with h0; exact absurd h0 hz
                · rw [hd] at hden
                  injection hden with hden
                  subst hden
                  refine ⟨fun _ => rfl, fun num hnum => ?_⟩
                  rw [hn] at hnum; cases hnum
            | ok num1 =>
              rw [hn] at he
              simp only [setAudio] at he
              refine ⟨{ rateBase with
                  fps := .float (pyRound2 ((num1 : ℚ) / (den1 : ℚ))),
                  has_audio := .int 0 },
                get_ok_of_none _ _ (by rw [he]), ?_, ?_⟩
              · intro hlen; exact absurd rfl hlen
              · intro pa pb hpp
                injection hpp with h1 h2
                injection h2 with h2 _
                subst h1; subst h2
                refine ⟨fun hbad => ?_, fun h0 => ?_, fun den hden hdz => ?_⟩
                · rw [hd] at hbad; cases hbad
                · rw [hd] at h0; injection h0 with h0; exact absurd h0 hz
                · rw [hd] at hden
                  injection hden with hden
                  subst hden
                  refine ⟨fun hbad => ?_, fun num hnum => ?_⟩
                  · rw [hn] at hbad; cases hbad
                  · rw [hn] at hnum
                    injection hnum with hnum
                    subst hnum
                    rfl

/-- Witness for the amended claim C3 at the concrete rate strings `30/x`
(extraction succeeds, fps is the absent sentinel) and `30/0` (extraction
succeeds, fps is the integer `0`, no division-by-zero crash). -/
theorem c3_fps_characterization_witness :
    (∃ m, get_video_metadata (rateProbe "30/x") = Except.ok m ∧
      m.fps = PyScalar.none) ∧
    (∃ m, get_video_metadata (rateProbe "30/0") = Except.ok m ∧
      m.fps = PyScalar.int 0) := by
  constructor
  · obtain ⟨m, hok, hlen, htwo⟩ := c3_fps_characterization "30/x"
    have hparts : (splitOnSlash ("30/x".data)).map String.mk = ["30", "x"] := by decide
    exact ⟨m, hok, (htwo "30" "x" hparts).1 (by decide)⟩
  · obtain ⟨m, hok, hlen, htwo⟩ := c3_fps_characterization "30/0"
    have hparts : (splitOnSlash ("30/0".data)).map String.mk = ["30", "0"] := by decide
    exact ⟨m, hok, ((htwo "30" "0" hparts).2).1 (by decide)⟩

/-- Any record `get_video_metadata` returns has `has_audio` equal to the
integer `0` or `1`. -/
lemma get_ok_has_audio (pr : ProbeResult) (m : Metadata)
    (h : get_video_metadata pr = Except.ok m) :
    m.has_audio = PyScalar.int 0 ∨ m.has_audio = PyScalar.int 1 := by
  unfold get_video_metadata at h
  cases ht : tryBody pr metaDefault with
  | mk m2 eo =>
    rw [ht] at h
    cases eo with
    | none =>
      injection h with h
      subst h
      have ha := tryBody_ok_has_audio pr metaDefault m2 ht
      by_cases hf : audioStreamFound pr = true
      · right; rw [ha, if_pos hf]
      · left; rw [ha, if_neg hf]
    | some e =>
      dsimp only at h
      by_cases hc : caughtErrors e = true
      · rw [if_pos hc] at h
        injection h with h
        left
        rw [← h]
        exact tryBody_err_has_audio pr metaDefault m2 e ht
      · rw [if_neg hc] at h
        cases h

/-- Claim C5 counterexample: a probe with an audio stream present whose
video stream carries the malformed rate `30/x` produces a record with
`has_audio = 0`, because the caught `ValueError` skips the
`has_audio` assignment; the claim demands `has_audio = 1` here. -/
theorem c5_has_audio_counterexample :
    get_video_metadata malformedRateWithAudioProbe =
      Except.ok { duration := PyScalar.float 0, width := PyScalar.int 0,
                  height := PyScalar.int 0, fps := PyScalar.none,
                  has_audio := PyScalar.int 0, bitrate := PyScalar.int 0 } ∧
    audioStreamFound malformedRateWithAudioProbe = true ∧
    PyScalar.int 0 ≠ PyScalar.int 1 := by
  decide

/-- Claim C5 as amended: every record `get_video_metadata` returns has
`has_audio` equal to `0` or `1` (never absent), and when the `try`
block runs to completion without a caught error, `has_audio = 1` holds
exactly when an audio stream entry is present in the probe's stream
list; on a contained error before the `has_audio` assignment the field
keeps its initial `0` even if an audio stream is present. -/
theorem c5_has_audio_amended (pr : ProbeResult) (m : Metadata)
    (h : get_video_metadata pr = Except.ok m) :
    (m.has_audio = PyScalar.int 0 ∨ m.has_audio = PyScalar.int 1) ∧
    ((tryBody pr metaDefault).2 = Option.none →
      (m.has_audio = PyScalar.int 1 ↔ audioStreamFound pr = true)) := by
  refine ⟨get_ok_has_audio pr m h, ?_⟩
  intro hdone
  unfold get_video_metadata at h
  cases ht : tryBody pr metaDefault with
  | mk m2 eo =>
    rw [ht] at hdone
    simp only at hdone
    subst hdone
    rw [ht] at h
    injection h with h
    subst h
    have ha := tryBody_ok_has_audio pr metaDefault m2 ht
    by_cases hf : audioStreamFound pr = true
    · rw [ha, if_pos hf]; simp [hf]
    · have hf2 : audioStreamFound pr = false := by
        cases hfa : audioStreamFound pr
        · rfl
        · exact absurd hfa hf
      rw [ha, if_neg hf, hf2]
      decide

/-- Witness for the amended claim C5 at the well-formed probe. -/
theorem c5_has_audio_amended_witness :
    ({ duration := PyScalar.float 12, width := PyScalar.int 1920,
       height := PyScalar.int 1080,
       fps := PyScalar.float (pyRound2 ((30000 : ℚ) / 1001)),
       has_audio := PyScalar.int 1, bitrate := PyScalar.int 534000 } : Metadata).has_audio
        = PyScalar.int 0 ∨
    ({ duration := PyScalar.float 12, width := PyScalar.int 1920,
       height := PyScalar.int 1080,
       fps := PyScalar.float (pyRound2 ((30000 : ℚ) / 1001)),
       has_audio := PyScalar.int 1, bitrate := PyScalar.int 534000 } : Metadata).has_audio
        = PyScalar.int 1 :=
  (c5_has_audio_amended wellFormedProbe _ (by decide)).1

/-- Structure of any created output file: the header first, then one row
per processed file, each row built by `mkRow` from the extractor's
result for that file, every processed file passing the filter. -/
lemma outFile_rows (video_dir : String) (st : PathState)
    (probe : String → ProbeResult) (l : List (List PyScalar))
    (h : (process_videos video_dir st probe).outFile = some l) :
    l.head? = some headerRow ∧
    ∀ r ∈ l.tail, ∃ f m, matchesMp4 f = true ∧
      get_video_metadata (probe (pathJoin video_dir f)) = Except.ok m ∧
      r = mkRow f m := by
  cases st with
  | absent => simp [process_videos] at h
  | plainFile => simp [process_videos] at h
  | dir entries =>
    simp only [process_videos] at h
    injection h with h
    subst h
    refine ⟨rfl, ?_⟩
    intro r hr
    obtain ⟨f, hf, m, hm, hrm⟩ :=
      writeRows_mem video_dir probe (entries.filter matchesMp4) r hr
    exact ⟨f, m, (List.mem_filter.mp hf).2, hm, hrm⟩

/-- Claim C7 (confirmed): exactly the directory entries whose lowered
name ends in `.mp4` are selected, each contributing one row whose id is
the filename with `os.path.splitext`'s extension removed; in particular
the directory `clip_1.mp4`, `CLIP_2.MP4`, `notes.txt` yields exactly the
two ids `clip_1` and `CLIP_2`. -/
theorem c7_selection_and_ids :
    (∀ (video_dir : String) (entries : List String) (probe : String → ProbeResult),
      (∀ p, (get_video_metadata (probe p)).isOk = true) →
      ∃ rows, process_videos video_dir (PathState.dir entries) probe =
          { outFile := some (headerRow :: rows), raised := Option.none } ∧
        rows.map (fun r => r.head?) =
          (entries.filter matchesMp4).map
            (fun f => some (PyScalar.str (splitextStem f)))) ∧
    process_videos "d" (PathState.dir ["clip_1.mp4", "CLIP_2.MP4", "notes.txt"])
        (fun _ => ProbeResult.nonZeroExit) =
      { outFile := some [headerRow,
          [PyScalar.str "clip_1", PyScalar.none, PyScalar.none, PyScalar.none,
           PyScalar.none, PyScalar.int 0, PyScalar.none],
          [PyScalar.str "CLIP_2", PyScalar.none, PyScalar.none, PyScalar.none,
           PyScalar.none, PyScalar.int 0, PyScalar.none]],
        raised := Option.none } := by
  constructor
  · intro video_dir entries probe h
    have hall := writeRows_allOk video_dir probe (entries.filter matchesMp4)
      (fun f _ => h (pathJoin video_dir f))
    refine ⟨(writeRows video_dir probe (entries.filter matchesMp4)).1, ?_, hall.2⟩
    simp [process_videos, hall.1]
  · decide

/-- Witness for claim C7 on a one-file directory with contained
extraction failures. -/
theorem c7_selection_and_ids_witness :
    ∃ rows, process_videos "w" (PathState.dir ["a.mp4"])
        (fun _ => ProbeResult.badJson) =
      { outFile := some (headerRow :: rows), raised := Option.none } ∧
      rows.map (fun r => r.head?) =
        (["a.mp4"].filter matchesMp4).map
          (fun f => some (PyScalar.str (splitextStem f))) :=
  c7_selection_and_ids.1 "w" ["a.mp4"] (fun _ => ProbeResult.badJson)
    (fun p =>
      show (get_video_metadata ProbeResult.badJson).isOk = true by decide)

/-- Claim C9 (confirmed): whenever the output file is created, its first
row is exactly the header `Id,duration,width,height,fps,has_audio,bitrate`
and every later row is the file's id followed by the six metadata fields
in that order. -/
theorem c9_header_and_row_shape (video_dir : String) (st : PathState)
    (probe : String → ProbeResult) (l : List (List PyScalar))
    (h : (process_videos video_dir st probe).outFile = some l) :
    l.head? = some [PyScalar.str "Id", PyScalar.str "duration",
      PyScalar.str "width", PyScalar.str "height", PyScalar.str "fps",
      PyScalar.str "has_audio", PyScalar.str "bitrate"] ∧
    ∀ r ∈ l.tail, ∃ f m, matchesMp4 f = true ∧
      get_video_metadata (probe (pathJoin video_dir f)) = Except.ok m ∧
      r = [PyScalar.str (splitextStem f), m.duration, m.width, m.height,
           m.fps, m.has_audio, m.bitrate] := by
  obtain ⟨hhead, hrows⟩ := outFile_rows video_dir st probe l h
  refine ⟨hhead, ?_⟩
  intro r hr
  obtain ⟨f, m, hmf, hm, hrm⟩ := hrows r hr
  exact ⟨f, m, hmf, hm, hrm⟩

/-- Witness for claim C9 on a concrete run. -/
theorem c9_header_and_row_shape_witness :
    ([headerRow,
      [PyScalar.str "a", PyScalar.none, PyScalar.none, PyScalar.none,
       PyScalar.none, PyScalar.int 0, PyScalar.none]] :
        List (List PyScalar)).head? =
      some [PyScalar.str "Id", PyScalar.str "duration", PyScalar.str "width",
        PyScalar.str "height", PyScalar.str "fps", PyScalar.str "has_audio",
        PyScalar.str "bitrate"] ∧
    ∀ r ∈ ([headerRow,
      [PyScalar.str "a", PyScalar.none, PyScalar.none, PyScalar.none,
       PyScalar.none, PyScalar.int 0, PyScalar.none]] :
        List (List PyScalar)).tail,
      ∃ f m, matchesMp4 f = true ∧
        get_video_metadata ((fun _ => ProbeResult.nonZeroExit) (pathJoin "w" f)) =
          Except.ok m ∧
        r = [PyScalar.str (splitextStem f), m.duration, m.width, m.height,
             m.fps, m.has_audio, m.bitrate] :=
  c9_header_and_row_shape "w" (PathState.dir ["a.mp4"])
    (fun _ => ProbeResult.nonZeroExit) _ (by decide)

/-- Claim C8 (confirmed): in every data row of the output table, the
`has_audio` cell renders as the string `0` or `1`, and every field
holding the absent sentinel renders as the empty cell, never as `0`. -/
theorem c8_csv_cells (video_dir : String) (st : PathState)
    (probe : String → ProbeResult) (l : List (List PyScalar))
    (h : (process_videos video_dir st probe).outFile = some l) :
    ∀ r ∈ l.tail,
      ((csvRender r)[5]? = some "0" ∨ (csvRender r)[5]? = some "1") ∧
      ∀ (i : ℕ) (c : PyScalar), r[i]? = some c → c = PyScalar.none →
        (csvRender r)[i]? = some "" := by
  obtain ⟨_, hrows⟩ := outFile_rows video_dir st probe l h
  intro r hr
  obtain ⟨f, m, _, hm, hrm⟩ := hrows r hr
  constructor
  · have h5 : (csvRender r)[5]? = some (csvCell m.has_audio) := by
      rw [hrm]; rfl
    cases get_ok_has_audio _ _ hm with
    | inl h0 => left; rw [h5, h0]; rfl
    | inr h1 => right; rw [h5, h1]; rfl
  · intro i c hi hc
    subst hc
    show (r.map csvCell)[i]? = some ""
    rw [List.getElem?_map, hi]
    rfl

/-- Witness for claim C8 on a concrete default-valued data row. -/
theorem c8_csv_cells_witness :
    ((csvRender [PyScalar.str "a", PyScalar.none, PyScalar.none, PyScalar.none,
        PyScalar.none, PyScalar.int 0, PyScalar.none])[5]? = some "0" ∨
     (csvRender [PyScalar.str "a", PyScalar.none, PyScalar.none, PyScalar.none,
        PyScalar.none, PyScalar.int 0, PyScalar.none])[5]? = some "1") ∧
    ∀ (i : ℕ) (c : PyScalar),
      ([PyScalar.str "a", PyScalar.none, PyScalar.none, PyScalar.none,
        PyScalar.none, PyScalar.int 0, PyScalar.none] : List PyScalar)[i]? = some c →
      c = PyScalar.none →
      (csvRender [PyScalar.str "a", PyScalar.none, PyScalar.none, PyScalar.none,
        PyScalar.none, PyScalar.int 0, PyScalar.none])[i]? = some "" :=
  c8_csv_cells "w" (PathState.dir ["a.mp4"]) (fun _ => ProbeResult.nonZeroExit)
    [headerRow, [PyScalar.str "a", PyScalar.none, PyScalar.none, PyScalar.none,
      PyScalar.none, PyScalar.int 0, PyScalar.none]] (by decide)
    _ (by decide)
